import Mathlib

/-!
# Verification of the rungraph chart engine

Shallow embedding of the code in `src/utils.ts` and `src/GoalGraphRenderer.ts`
of the `botpilots/rungraph` repository, together with proofs about it.

Modelling conventions:
* JavaScript numbers are modelled as exact rationals (`ℚ`); `NaN` is modelled
  by `Option.none`, so a possibly-NaN number is an `Option ℚ` (or `Option ℤ`
  where the code only ever produces integers).  Arithmetic on possibly-NaN
  values propagates `none`, as NaN propagates in JavaScript.
* JavaScript strings are modelled as `List Char` (with `String` wrappers kept
  for the two `utils.ts` entry points, using the source names).
* `Date` values are modelled as their millisecond timestamps (`ℤ`, the value
  of `Date.prototype.getTime`).  Local time is identified with UTC and
  daylight-saving shifts are ignored, so `setHours(0,0,0,0)` is flooring to a
  multiple of 86400000 ms.
* Only the fields and derived collections that the verified claims touch are
  modelled: the week/day gridline markers, the vertical pixel mapping of
  points and the column heights (pure per-entity postprocessing steps of
  `processData`) are omitted, as is everything that only paints.
-/

set_option maxRecDepth 2000

namespace RunGraph

/-! ## JavaScript string-to-number conversion

`jsNumberL` models the ECMAScript `Number(string)` conversion as used by
`utils.ts` (`.map(Number)` over colon-separated fields): the empty or
all-whitespace string converts to `0`, an optionally signed decimal integer
literal converts to its value, and everything else converts to NaN (`none`).
Fractional, exponential, hexadecimal and `Infinity` literals — which never
arise from the repository's time strings — are conservatively mapped to
`none` as well. -/

/-- Whitespace test used by the model of JavaScript string trimming. -/
def isWSChar (c : Char) : Bool :=
  decide (c = ' ' ∨ c = '\t' ∨ c = '\n' ∨ c = '\r')

/-- Decimal digit test (`'0'` to `'9'`, i.e. code points 48–57). -/
def isDigitChar (c : Char) : Bool :=
  decide (48 ≤ c.toNat ∧ c.toNat ≤ 57)

/-- Numeric value of a decimal digit string (most significant digit first). -/
def digitsVal (l : List Char) : ℕ :=
  l.foldl (fun a c => 10 * a + (c.toNat - 48)) 0

/-- Strip leading and trailing whitespace, as `Number(string)` does. -/
def trimL (l : List Char) : List Char :=
  ((l.dropWhile isWSChar).reverse.dropWhile isWSChar).reverse

/-- Model of `Number(string)` restricted to integer literals (see above). -/
def jsNumberL (l : List Char) : Option ℤ :=
  let t := trimL l
  if t = [] then some 0
  else if t.all isDigitChar then some (digitsVal t : ℤ)
  else if t.headD ' ' = '-' ∧ t.tail ≠ [] ∧ t.tail.all isDigitChar then
    some (-(digitsVal t.tail : ℤ))
  else if t.headD ' ' = '+' ∧ t.tail ≠ [] ∧ t.tail.all isDigitChar then
    some (digitsVal t.tail : ℤ)
  else none

/-- NaN-propagating multiplication by a constant (`NaN * k = NaN`). -/
def jsMul (x : Option ℤ) (k : ℤ) : Option ℤ :=
  x.map (· * k)

/-- NaN-propagating addition. -/
def jsAdd : Option ℤ → Option ℤ → Option ℤ
  | some a, some b => some (a + b)
  | _, _ => none

/-! ## `String.prototype.split` with a single-character separator -/

/-- Prepend a character to the first chunk of a split result. -/
def consHead (x : Char) : List (List Char) → List (List Char)
  | [] => [[x]]
  | y :: ys => (x :: y) :: ys

/-- Model of JavaScript `s.split(c)` for a one-character separator `c`:
splitting the empty string gives `[[]]`, and each occurrence of `c` starts a
new chunk. -/
def splitOnChar (c : Char) : List Char → List (List Char)
  | [] => [[]]
  | x :: xs => if x = c then [] :: splitOnChar c xs else consHead x (splitOnChar c xs)

/-! ## `parseTimeToSeconds` (src/utils.ts lines 4–13)

```ts
const parseTimeToSeconds = (timeStr: string): number => {
  const parts = timeStr.split(' ')[0].split(':').map(Number);
  if (parts.length === 3) return parts[0]*3600 + parts[1]*60 + parts[2];
  else if (parts.length === 2) return parts[0]*60 + parts[1];
  console.warn(`Could not parse time: ${timeStr}`);
  return 0;
};
```
The result is an `Option ℤ`: `none` is NaN (a field that `Number` could not
parse propagates through the arithmetic). -/

/-- Core of `parseTimeToSeconds` on character lists. -/
def parseTimeCore (l : List Char) : Option ℤ :=
  let firstTok := (splitOnChar ' ' l).headD []
  let parts := (splitOnChar ':' firstTok).map jsNumberL
  match parts with
  | [a, b, c] => jsAdd (jsAdd (jsMul a 3600) (jsMul b 60)) c
  | [a, b] => jsAdd (jsMul a 60) b
  | _ => some 0

/-- Model of `parseTimeToSeconds` from `src/utils.ts`. -/
def parseTimeToSeconds (s : String) : Option ℤ :=
  parseTimeCore s.data

/-! ## `formatSecondsToTime` (src/utils.ts lines 16–22)

```ts
const formatSecondsToTime = (totalSeconds: number): string => {
  if (isNaN(totalSeconds) || totalSeconds < 0) return "00:00:00";
  const hours = Math.floor(totalSeconds / 3600);
  const minutes = Math.floor((totalSeconds % 3600) / 60);
  const seconds = Math.floor(totalSeconds % 60);
  return `${pad2 hours}:${pad2 minutes}:${pad2 seconds}`;
};
```
The input is an `Option ℚ` (`none` = NaN).  On the non-NaN branch the input
is nonnegative, so the three `Math.floor` results are nonnegative integers
and `String(n)` is their plain decimal representation; the `Int.toNat`
coercions below are exact on that branch. -/

/-- Decimal digit list of a natural number (model of JavaScript `String(n)`
for a nonnegative integer). -/
def natDigits (n : ℕ) : List Char :=
  if _h : n < 10 then [Nat.digitChar n]
  else natDigits (n / 10) ++ [Nat.digitChar (n % 10)]
  decreasing_by exact Nat.div_lt_self (by omega) (by omega)

/-- Model of `String.prototype.padStart(2, '0')`. -/
def pad2 (l : List Char) : List Char :=
  if l.length < 2 then List.replicate (2 - l.length) '0' ++ l else l

/-- JavaScript `%` (remainder).  For the nonnegative dividends and positive
divisors occurring in `formatSecondsToTime` this equals `a - b * ⌊a / b⌋`. -/
def jsFmod (a b : ℚ) : ℚ :=
  a - b * ⌊a / b⌋

/-- Character-list core of `formatSecondsToTime`. -/
def formatSecondsToTimeL (totalSeconds : Option ℚ) : List Char :=
  match totalSeconds with
  | none => "00:00:00".data
  | some t =>
    if t < 0 then "00:00:00".data
    else
      let hours : ℕ := (⌊t / 3600⌋).toNat
      let minutes : ℕ := (⌊jsFmod t 3600 / 60⌋).toNat
      let seconds : ℕ := (⌊jsFmod t 60⌋).toNat
      pad2 (natDigits hours) ++ ':' :: (pad2 (natDigits minutes) ++ ':' :: pad2 (natDigits seconds))

/-- Model of `formatSecondsToTime` from `src/utils.ts`. -/
def formatSecondsToTime (totalSeconds : Option ℚ) : String :=
  ⟨formatSecondsToTimeL totalSeconds⟩

/-! ## Week helpers (src/utils.ts lines 31–51) -/

/-- Milliseconds in a calendar day. -/
def msPerDay : ℤ := 86400000

/-- Model of `setHours(0,0,0,0)`: floor a timestamp to its day's local midnight
(local time identified with UTC). -/
def startOfDayMs (t : ℤ) : ℤ :=
  msPerDay * Int.fdiv t msPerDay

/-- Model of `Date.prototype.getDay`: 0 = Sunday … 6 = Saturday.  Epoch day 0
(1970-01-01) was a Thursday. -/
def dayOfWeekJS (t : ℤ) : ℤ :=
  (Int.fdiv t msPerDay + 4) % 7

/-- Model of `getStartOfWeek`: midnight of the Monday of the week of `t`. -/
def getStartOfWeek (t : ℤ) : ℤ :=
  startOfDayMs (t - (dayOfWeekJS t + 6) % 7 * msPerDay)

/-- Model of `isDateInPreviousWeek` from `src/utils.ts`. -/
def isDateInPreviousWeek (date1 date2 : ℤ) : Bool :=
  decide (getStartOfWeek date2 - getStartOfWeek date1 = 7 * 24 * 60 * 60 * 1000)

/-- Model of `areDatesInSameWeek` from `src/utils.ts`. -/
def areDatesInSameWeek (date1 date2 : ℤ) : Bool :=
  decide (getStartOfWeek date1 = getStartOfWeek date2)

/-! ## GoalGraphRenderer: layout constants (src/GoalGraphRenderer.ts lines 26–74) -/

/-- The constant `padding.left`. -/
def padLeft : ℚ := 10
/-- The constant `padding.right`. -/
def padRight : ℚ := 10
/-- The constant `padding.top`. -/
def padTop : ℚ := 50
/-- The constant `padding.bottom`. -/
def padBottom : ℚ := 120
/-- The constant `pointSize`. -/
def pointSize : ℚ := 10
/-- The constant `knobWidth = pointSize * 1.6`. -/
def knobWidth : ℚ := pointSize * 1.6
/-- The constant `knobHeight = pointSize * 2.0`. -/
def knobHeight : ℚ := pointSize * 2.0
/-- The constant `threeWeeksInMillis`. -/
def threeWeeksInMillis : ℤ := 3 * 7 * 24 * 60 * 60 * 1000

/-! ## Data structures -/

/-- The two view modes (`'3weeks' | 'full'`). -/
inductive ViewMode where
  | threeWeeks
  | full
deriving DecidableEq

/-- Point categories. -/
inductive PointType where
  | start
  | goal
  | trial
deriving DecidableEq

/-- A raw Strava activity, restricted to the fields `processData` reads.
`movingTime` is `none` when `moving_time` is absent, not number-typed, or
NaN (all of which fail the source's `typeof === 'number' && > 0` check). -/
structure SummaryActivity where
  movingTime : Option ℚ
  startDateLocalMs : ℤ
  workoutType : Option ℤ
deriving DecidableEq

/-- A scored point (`Point` in `src/types/graphRenderer.ts`), restricted to
the fields the claims touch.  `timeSeconds` is `none` when the source value
is NaN.  The per-frame `currentX`, the vertical pixel `y` and the display
label are omitted. -/
structure PointR where
  originalX : ℚ
  dateMs : ℤ
  timeSeconds : Option ℚ
  type : PointType
deriving DecidableEq

/-- A workout column (`WorkoutColumn`), restricted to the fields the claims
touch; `currentX`, `y` and `height` are omitted. -/
structure ColumnR where
  originalX : ℚ
  width : ℚ
  dateMs : ℤ
  movingTime : ℚ
deriving DecidableEq

/-- The mutable state of a `GoalGraphRenderer` instance: constructor inputs
plus the fields written by `processData`, `constrainViewOffset` and the
pointer handlers.  `sliderX` is `Option ℚ` because the source initialises it
to `null`. -/
structure RendererState where
  startRaceTime : String
  startDateMs : ℤ
  goalRaceTime : String
  goalDateMs : ℤ
  activities : List SummaryActivity
  canvasWidth : ℚ
  canvasHeight : ℚ
  viewMode : ViewMode
  viewOffsetX : ℚ
  sliderX : Option ℚ
  isDraggingSlider : Bool
  isDraggingGraph : Bool
  dragStartX : ℚ
  dragStartOffsetX : ℚ
  totalGraphContentWidth : ℚ
  points : List PointR
  workoutColumns : List ColumnR
  yMin : ℚ
  yMax : ℚ
  contentMinX : ℚ
  contentMaxX : ℚ
deriving DecidableEq

/-- Derived `graphWidth = max(1, canvasWidth - padding.left - padding.right)`. -/
def graphWidth (s : RendererState) : ℚ :=
  max 1 (s.canvasWidth - padLeft - padRight)

/-- Derived `sliderTrackY = canvasHeight - padding.bottom`. -/
def sliderTrackY (s : RendererState) : ℚ :=
  s.canvasHeight - padBottom

/-! ## `processData` (src/GoalGraphRenderer.ts lines 197–448) -/

/-- Derived `fullTimeSpan = max(1, goalDate.getTime() - startDate.getTime())`. -/
def fullSpanOf (s : RendererState) : ℤ :=
  max 1 (s.goalDateMs - s.startDateMs)

/-- The effective (view-mode-adjusted) time span, lines 208–216. -/
def effectiveSpanOf (s : RendererState) : ℤ :=
  match s.viewMode with
  | ViewMode.threeWeeks =>
    let effectiveStartTime := max s.startDateMs (s.goalDateMs - threeWeeksInMillis)
    max 1 (s.goalDateMs - effectiveStartTime)
  | ViewMode.full => fullSpanOf s

/-- Derived `totalGraphContentWidth`, lines 219–223. -/
def contentWidthOf (s : RendererState) : ℚ :=
  if 0 < graphWidth s ∧ 0 < effectiveSpanOf s then
    ((fullSpanOf s : ℚ) / (effectiveSpanOf s : ℚ)) * graphWidth s
  else graphWidth s

/-- The timeline mapper `mapTimeToX`, lines 231–234:
`padding.left + timeRatioInFullSpan * totalGraphContentWidth`, with the ratio
taken as 0 on a non-positive span. -/
def mapTimeToX (startDateMs fullTimeSpan : ℤ) (totalWidth : ℚ) (dateMs : ℤ) : ℚ :=
  padLeft +
    (if 0 < fullTimeSpan then ((dateMs - startDateMs : ℤ) : ℚ) / (fullTimeSpan : ℚ) else 0) *
      totalWidth

/-- Stable insertion of a point into a date-sorted list: the new point goes
after all points whose date is ≤ its own. -/
def insertByDate (x : PointR) : List PointR → List PointR
  | [] => [x]
  | y :: ys => if y.dateMs ≤ x.dateMs then y :: insertByDate x ys else x :: y :: ys

/-- Stable sort by ascending date, the model of
`points.sort((a, b) => a.date.getTime() - b.date.getTime())` (line 406);
JavaScript's sort is stable. -/
def sortPointsByDate (l : List PointR) : List PointR :=
  l.foldl (fun acc x => insertByDate x acc) []

/-- The default `yMax` of line 417, `parseTimeToSeconds("02:00:00")`; the
parse of this constant string succeeds (see `parse_twoHours` below), `getD`
merely extracts the value. -/
def defaultYMax : ℚ :=
  ((parseTimeToSeconds "02:00:00").getD 0 : ℤ)

/-- The y-axis scaling of lines 409–418, applied to the non-NaN point
durations: `buffer = max((max-min)*0.1, 30)`, `yMin = max(0, min-buffer)`,
`yMax = max+buffer`; `(0, parseTimeToSeconds("02:00:00"))` when no point has
a valid duration. -/
def computeYScale (allTimes : List ℚ) : ℚ × ℚ :=
  match allTimes with
  | [] => (0, defaultYMax)
  | t :: ts =>
    let minYValue := ts.foldl min t
    let maxYValue := ts.foldl max t
    let yBuffer := max ((maxYValue - minYValue) * (1 / 10)) 30
    (max 0 (minYValue - yBuffer), maxYValue + yBuffer)

/-- Model of `constrainViewOffset`, lines 175–194.  Note the min/max offsets are
computed from the *current* `contentMinX`/`contentMaxX` fields. -/
def constrainViewOffset (s : RendererState) : RendererState :=
  let maxOffsetX := max 0 (s.contentMaxX - (s.canvasWidth - padRight))
  let minOffsetX := max 0 (s.contentMinX - padLeft)
  let visibleContentWidth := s.contentMaxX - s.contentMinX
  let targetOffsetX :=
    if visibleContentWidth < graphWidth s then
      s.contentMinX - padLeft - (graphWidth s - visibleContentWidth) / 2
    else
      max minOffsetX (min s.viewOffsetX maxOffsetX)
  { s with viewOffsetX := max 0 targetOffsetX }

/-- The per-activity step of the `activities.forEach` loop of lines 369–404,
accumulating the point and column lists: skip activities outside
`[startDate, goalDate]` or without a valid positive numeric `moving_time`;
emit a trial point when `workout_type === 1`; always emit a column. -/
def processActivity (startDateMs goalDateMs fullTimeSpan : ℤ) (totalWidth dayWidth : ℚ)
    (acc : List PointR × List ColumnR) (a : SummaryActivity) :
    List PointR × List ColumnR :=
  if a.startDateLocalMs < startDateMs ∨ goalDateMs < a.startDateLocalMs then acc
  else
    match a.movingTime with
    | none => acc
    | some mt =>
      if mt ≤ 0 then acc
      else
        let columnStartX :=
          mapTimeToX startDateMs fullTimeSpan totalWidth (startOfDayMs a.startDateLocalMs)
        let withPoint :=
          if a.workoutType = some 1 then
            acc.1 ++ [{ originalX := columnStartX + dayWidth / 2, dateMs := a.startDateLocalMs,
                        timeSeconds := some mt, type := PointType.trial }]
          else acc.1
        (withPoint,
         acc.2 ++ [{ originalX := columnStartX, width := dayWidth, dateMs := a.startDateLocalMs,
                     movingTime := mt }])

/-- Model of `processData`, lines 197–448, restricted to the fields the claims touch
(week/day markers, vertical pixel mapping and column heights omitted).  The
source order is kept: the start and goal points are pushed first, then one
point per trial activity and one column per valid activity, the points are
sorted by date, the y-scale is computed, `constrainViewOffset` runs with the
*stale* content bounds (line 437), and only then are `contentMinX` and
`contentMaxX` recomputed from the new points (lines 440–447). -/
def processData (s : RendererState) : RendererState :=
  let startDate := s.startDateMs
  let goalDate := s.goalDateMs
  let fullTimeSpan := fullSpanOf s
  let totalWidth := contentWidthOf s
  let dayWidth := ((msPerDay : ℚ) / (fullTimeSpan : ℚ)) * totalWidth
  let halfDayWidth := dayWidth / 2
  let startPoint : PointR :=
    { originalX := mapTimeToX startDate fullTimeSpan totalWidth (startOfDayMs startDate) +
        halfDayWidth
      dateMs := startDate
      timeSeconds := (parseTimeToSeconds s.startRaceTime).map (fun v => (v : ℚ))
      type := PointType.start }
  let goalPoint : PointR :=
    { originalX := mapTimeToX startDate fullTimeSpan totalWidth (startOfDayMs goalDate) +
        halfDayWidth
      dateMs := goalDate
      timeSeconds := (parseTimeToSeconds s.goalRaceTime).map (fun v => (v : ℚ))
      type := PointType.goal }
  let processed := s.activities.foldl
    (processActivity startDate goalDate fullTimeSpan totalWidth dayWidth)
    ([startPoint, goalPoint], ([] : List ColumnR))
  let sortedPoints := sortPointsByDate processed.1
  let allTimes := (sortedPoints.map PointR.timeSeconds).filterMap id
  let yScale := computeYScale allTimes
  let s1 := { s with
    totalGraphContentWidth := totalWidth
    points := sortedPoints
    workoutColumns := processed.2
    yMin := yScale.1
    yMax := yScale.2 }
  let s2 := constrainViewOffset s1
  match sortedPoints with
  | [] => { s2 with contentMinX := padLeft, contentMaxX := s.canvasWidth - padRight }
  | p0 :: _ =>
    { s2 with
      contentMinX := sortedPoints.foldl (fun m q => min m q.originalX) p0.originalX
      contentMaxX := sortedPoints.foldl (fun m q => max m q.originalX) p0.originalX }

/-! ## View-mode toggle and constructor flow -/

/-- Model of `setViewMode`, lines 163–173: reset the offset, re-process, reset the
slider, re-constrain. -/
def setViewMode (mode : ViewMode) (s : RendererState) : RendererState :=
  if s.viewMode = mode then s
  else
    let s1 := processData { s with viewMode := mode, viewOffsetX := 0 }
    constrainViewOffset { s1 with sliderX := some padLeft }

/-- The constructor / `updateDimensionsAndCanvas(false)` flow (lines 96–155):
clamp the canvas size, process the data, put the slider at the left padding,
constrain the offset.  The default view mode is `'full'` (line 59). -/
def initRenderer (startRace : String) (startMs : ℤ) (goalRace : String) (goalMs : ℤ)
    (acts : List SummaryActivity) (parentW parentH : ℚ) : RendererState :=
  let s0 : RendererState :=
    { startRaceTime := startRace, startDateMs := startMs
      goalRaceTime := goalRace, goalDateMs := goalMs
      activities := acts
      canvasWidth := max 50 parentW, canvasHeight := max 50 parentH
      viewMode := ViewMode.full, viewOffsetX := 0
      sliderX := none, isDraggingSlider := false, isDraggingGraph := false
      dragStartX := 0, dragStartOffsetX := 0
      totalGraphContentWidth := 0, points := [], workoutColumns := []
      yMin := 0, yMax := 1, contentMinX := 0, contentMaxX := 0 }
  let s1 := processData s0
  constrainViewOffset { s1 with sliderX := some padLeft }

/-! ## Mouse interaction (src/GoalGraphRenderer.ts lines 1178–1243) -/

/-- p5's `constrain(n, low, high) = Math.max(Math.min(n, high), low)`. -/
def constrainP5 (n low high : ℚ) : ℚ :=
  max (min n high) low

/-- Model of `handleMousePressed`, lines 1178–1205: start a slider drag when the
pointer is inside the knob box, else start a graph pan when the content is
wider than the graph and the pointer is inside the pan area. -/
def handleMousePressed (s : RendererState) (mouseX mouseY : ℚ) : RendererState :=
  match s.sliderX with
  | none => s
  | some sx =>
    let sliderKnobY := sliderTrackY s - knobHeight / 2
    if sx - knobWidth / 2 ≤ mouseX ∧ mouseX ≤ sx + knobWidth / 2 ∧
        sliderKnobY ≤ mouseY ∧ mouseY ≤ sliderKnobY + knobHeight then
      { s with isDraggingSlider := true, isDraggingGraph := false }
    else if graphWidth s < s.totalGraphContentWidth ∧
        padTop < mouseY ∧ mouseY < s.canvasHeight - padBottom ∧
        padLeft < mouseX ∧ mouseX < s.canvasWidth - padLeft then
      { s with isDraggingGraph := true, isDraggingSlider := false,
               dragStartX := mouseX, dragStartOffsetX := s.viewOffsetX }
    else s

/-- Model of `handleMouseDragged`, lines 1207–1229.  Slider branch: clamp the slider
to `[visibleContentStartX, min(visualSliderMaxX, visibleContentEndX)]` with
`visibleContentEndX` floored at `visibleContentStartX`.  Pan branch: move the
offset by the drag delta and re-constrain immediately.  The touch handler
`handleTouchMove` (lines 1130–1162) performs the identical computations. -/
def handleMouseDragged (s : RendererState) (mouseX : ℚ) : RendererState :=
  match s.isDraggingSlider, s.sliderX with
  | true, some _ =>
    let visibleContentStartX := max padLeft (s.contentMinX - s.viewOffsetX)
    let visibleContentEndX := max visibleContentStartX (s.contentMaxX - s.viewOffsetX)
    let visualSliderMaxX := s.canvasWidth - padLeft
    let actualSliderMaxX := min visualSliderMaxX visibleContentEndX
    { s with sliderX := some (constrainP5 mouseX visibleContentStartX actualSliderMaxX) }
  | _, _ =>
    if s.isDraggingGraph then
      constrainViewOffset { s with viewOffsetX := s.dragStartOffsetX - (mouseX - s.dragStartX) }
    else s

/-! ## Connecting-line style (src/GoalGraphRenderer.ts lines 671–706) -/

/-- How a segment between chronologically adjacent points is rendered. -/
inductive SegmentStyle where
  | solid
  | dashed
  | omitted
deriving DecidableEq

/-- The style decision of `drawConnectingLines` (lines 683–693) for the
segment from `currentPoint` to `nextPoint`: into the goal point it is dashed
when the previous point's date is in the same or the immediately preceding
Monday-start week, omitted otherwise; every other segment is solid.  (The
surrounding loop additionally culls segments entirely outside the visible
area — pure viewport clipping, independent of the style decision.) -/
def segmentKind (currentPoint nextPoint : PointR) : SegmentStyle :=
  if nextPoint.type = PointType.goal then
    if areDatesInSameWeek currentPoint.dateMs nextPoint.dateMs ∨
        isDateInPreviousWeek currentPoint.dateMs nextPoint.dateMs then
      SegmentStyle.dashed
    else SegmentStyle.omitted
  else SegmentStyle.solid

/-! ## Concrete renderer states used by witnesses and counterexamples -/

/-- A renderer state as the constructor initialises it, before the first
`processData` run (field defaults from lines 37–64 of the source). -/
def mkInitialState (startRace : String) (startMs : ℤ) (goalRace : String) (goalMs : ℤ)
    (acts : List SummaryActivity) (cw ch : ℚ) (vm : ViewMode) : RendererState :=
  { startRaceTime := startRace, startDateMs := startMs
    goalRaceTime := goalRace, goalDateMs := goalMs
    activities := acts, canvasWidth := cw, canvasHeight := ch, viewMode := vm
    viewOffsetX := 0, sliderX := none, isDraggingSlider := false, isDraggingGraph := false
    dragStartX := 0, dragStartOffsetX := 0, totalGraphContentWidth := 0
    points := [], workoutColumns := [], yMin := 0, yMax := 1
    contentMinX := 0, contentMaxX := 0 }

/-- Scenario A of the spec: start `"01:25:00"` on 2025-03-30 (epoch ms
1743292800000), goal `"01:10:00"` on 2025-05-17 (epoch ms 1747440000000),
no activities, an 800×500 canvas, full view. -/
def scenarioAState : RendererState :=
  mkInitialState "01:25:00" 1743292800000 "01:10:00" 1747440000000 [] 800 500 ViewMode.full

/-- A 42-day plan (start at epoch ms 0, goal 42 days later, both at
midnight), 800×500 canvas, freshly constructed in full view. -/
def panScenarioInit : RendererState :=
  initRenderer "01:25:00" 0 "01:10:00" (42 * 86400000) [] 800 500

/-- The 42-day plan after toggling to the 3-week view. -/
def panScenario3w : RendererState :=
  setViewMode ViewMode.threeWeeks panScenarioInit

/-- The 42-day plan in 3-week view with a pan drag started by a mouse press
at (789, 200), inside the pan area. -/
def panScenarioPressed : RendererState :=
  handleMousePressed panScenario3w 789 200

/-- The 42-day plan after the pan drag moves the pointer to x = 0
(a 789-pixel drag to the left). -/
def panScenarioDragged : RendererState :=
  handleMouseDragged panScenarioPressed 0

/-- A degenerate plan whose start (13:00) and goal (14:00) fall on the same
afternoon of epoch day 0, freshly constructed; both points then sit at
x = −770, far left of the canvas. -/
def sliderScenarioInit : RendererState :=
  initRenderer "01:25:00" 46800000 "01:10:00" 50400000 [] 800 500

/-- The degenerate plan with a probe drag in progress: press on the slider
knob at (10, 380). -/
def sliderScenarioPressed : RendererState :=
  handleMousePressed sliderScenarioInit 10 380

/-- The degenerate plan after the probe drag moves the pointer to x = 400. -/
def sliderScenarioDragged : RendererState :=
  handleMouseDragged sliderScenarioPressed 400

/-- A state whose start and goal race-time strings are the malformed
`"-1:30"`, which `parseTimeToSeconds` turns into −30 seconds. -/
def negScenarioState : RendererState :=
  mkInitialState "-1:30" 0 "-1:30" 86400000 [] 800 500 ViewMode.full

/-- A simple valid one-day time range used by the timeline-mapper witness. -/
def c1WitnessState : RendererState :=
  mkInitialState "01:25:00" 0 "01:10:00" 86400000 [] 800 500 ViewMode.full

/-- A one-day plan with well-formed race times (3600 s and 3000 s) used by
the y-scale witness. -/
def c9WitnessState : RendererState :=
  mkInitialState "01:00:00" 0 "00:50:00" 86400000 [] 800 500 ViewMode.full

/-! # Helper lemmas -/

theorem consHead_ne_nil (x : Char) (r : List (List Char)) : consHead x r ≠ [] := by
  cases r <;> simp [consHead]

theorem splitOnChar_of_not_mem {c : Char} {l : List Char} (h : c ∉ l) :
    splitOnChar c l = [l] := by
  induction l with
  | nil => rfl
  | cons x xs ih =>
    have hx : ¬x = c := by rintro rfl; exact h (List.mem_cons_self _ _)
    have hxs : c ∉ xs := fun hm => h (List.mem_cons_of_mem _ hm)
    simp [splitOnChar, hx, ih hxs, consHead]

theorem splitOnChar_append {c : Char} {l₁ : List Char} (l₂ : List Char) (h : c ∉ l₁) :
    splitOnChar c (l₁ ++ c :: l₂) = l₁ :: splitOnChar c l₂ := by
  induction l₁ with
  | nil => simp [splitOnChar]
  | cons x xs ih =>
    have hx : ¬x = c := by rintro rfl; exact h (List.mem_cons_self _ _)
    have hxs : c ∉ xs := fun hm => h (List.mem_cons_of_mem _ hm)
    simp [splitOnChar, hx, ih hxs, consHead]

theorem isDigitChar_toNat {c : Char} (h : isDigitChar c = true) :
    48 ≤ c.toNat ∧ c.toNat ≤ 57 := by
  simpa [isDigitChar] using h

theorem isDigitChar_ne_colon {c : Char} (h : isDigitChar c = true) : c ≠ ':' := by
  rintro rfl; revert h; decide

theorem isDigitChar_ne_space {c : Char} (h : isDigitChar c = true) : c ≠ ' ' := by
  rintro rfl; revert h; decide

theorem isWSChar_eq_false_of_digit {c : Char} (h : isDigitChar c = true) :
    isWSChar c = false := by
  rcases Bool.eq_false_or_eq_true (isWSChar c) with ht | hf
  case inr => exact hf
  case inl =>
    exfalso
    have hc : c = ' ' ∨ c = '\t' ∨ c = '\n' ∨ c = '\r' := by simpa [isWSChar] using ht
    rcases hc with rfl | rfl | rfl | rfl <;> revert h <;> decide

theorem digitChar_toNat {m : ℕ} (h : m < 10) : (Nat.digitChar m).toNat = 48 + m := by
  interval_cases m <;> rfl

theorem isDigitChar_digitChar {m : ℕ} (h : m < 10) : isDigitChar (Nat.digitChar m) = true := by
  interval_cases m <;> decide

theorem digitsVal_append_singleton (xs : List Char) (c : Char) :
    digitsVal (xs ++ [c]) = 10 * digitsVal xs + (c.toNat - 48) := by
  simp [digitsVal, List.foldl_append]

theorem natDigits_ne_nil (n : ℕ) : natDigits n ≠ [] := by
  rw [natDigits]
  split
  · simp
  · simp

theorem natDigits_all_digit (n : ℕ) : ∀ c ∈ natDigits n, isDigitChar c = true := by
  induction n using Nat.strong_induction_on with
  | _ n ih =>
    rw [natDigits]
    split
    · next h =>
      intro c hc
      rw [List.mem_singleton] at hc
      subst hc
      exact isDigitChar_digitChar h
    · next h =>
      intro c hc
      rcases List.mem_append.1 hc with h1 | h2
      · exact ih (n / 10) (Nat.div_lt_self (by omega) (by omega)) c h1
      · rw [List.mem_singleton] at h2
        subst h2
        exact isDigitChar_digitChar (Nat.mod_lt _ (by omega))

theorem digitsVal_natDigits (n : ℕ) : digitsVal (natDigits n) = n := by
  induction n using Nat.strong_induction_on with
  | _ n ih =>
    rw [natDigits]
    split
    · next h =>
      show 10 * 0 + ((Nat.digitChar n).toNat - 48) = n
      rw [digitChar_toNat h]
      omega
    · next h =>
      rw [digitsVal_append_singleton, ih (n / 10) (Nat.div_lt_self (by omega) (by omega)),
        digitChar_toNat (Nat.mod_lt _ (by omega))]
      omega

theorem mem_pad2 {c : Char} {l : List Char} (h : c ∈ pad2 l) : c = '0' ∨ c ∈ l := by
  unfold pad2 at h
  split at h
  · rcases List.mem_append.1 h with h1 | h2
    · exact Or.inl (List.eq_of_mem_replicate h1)
    · exact Or.inr h2
  · exact Or.inr h

theorem two_le_pad2_length (l : List Char) : 2 ≤ (pad2 l).length := by
  unfold pad2
  split
  · simp only [List.length_append, List.length_replicate]
    omega
  · omega

theorem pad2_ne_nil (l : List Char) : pad2 l ≠ [] := by
  intro h
  have := two_le_pad2_length l
  rw [h] at this
  simp at this

theorem digitsVal_cons_zero (t : List Char) : digitsVal ('0' :: t) = digitsVal t := rfl

theorem digitsVal_pad2 (l : List Char) : digitsVal (pad2 l) = digitsVal l := by
  unfold pad2
  split
  · next h =>
    interval_cases hl : l.length
    · rw [List.length_eq_zero.1 hl]
      rfl
    · rcases List.exists_of_length_succ _ hl with ⟨a, t, rfl⟩
      simp only [List.length_cons] at hl
      rw [List.length_eq_zero.1 (by omega : t.length = 0)]
      rfl
  · rfl

theorem dropWhile_eq_self_of {p : Char → Bool} {l : List Char}
    (h : ∀ c ∈ l, p c = false) : l.dropWhile p = l := by
  cases l with
  | nil => rfl
  | cons x xs => simp [List.dropWhile_cons, h x (List.mem_cons_self _ _)]

theorem trimL_eq_self {l : List Char} (h : ∀ c ∈ l, isWSChar c = false) : trimL l = l := by
  unfold trimL
  rw [dropWhile_eq_self_of h, dropWhile_eq_self_of, List.reverse_reverse]
  intro c hc
  exact h c (List.mem_reverse.1 hc)

theorem jsNumberL_digits {l : List Char} (h1 : l ≠ []) (h2 : ∀ c ∈ l, isDigitChar c = true) :
    jsNumberL l = some (digitsVal l : ℤ) := by
  have hws : ∀ c ∈ l, isWSChar c = false := fun c hc => isWSChar_eq_false_of_digit (h2 c hc)
  unfold jsNumberL
  simp only [trimL_eq_self hws]
  rw [if_neg h1, if_pos (List.all_eq_true.2 h2)]

theorem floor_cast_div_nat (x n : ℕ) (hn : 0 < n) :
    ⌊(x : ℚ) / (n : ℚ)⌋ = ((x / n : ℕ) : ℤ) := by
  have hn' : (0 : ℚ) < (n : ℚ) := by exact_mod_cast hn
  rw [Int.floor_eq_iff]
  constructor
  · rw [le_div_iff₀ hn']
    exact_mod_cast Nat.div_mul_le_self x n
  · rw [div_lt_iff₀ hn']
    have := Nat.lt_mul_div_succ x hn
    push_cast
    calc (x : ℚ) < (n : ℚ) * ((x / n : ℕ) + 1) := by exact_mod_cast this
    _ = ((x / n : ℕ) + 1) * n := by ring

theorem jsFmod_nonneg {a : ℚ} (b : ℚ) (hb : 0 < b) : 0 ≤ jsFmod a b := by
  unfold jsFmod
  have h1 : ((⌊a / b⌋ : ℚ)) ≤ a / b := Int.floor_le _
  have h2 : b * ((⌊a / b⌋ : ℚ)) ≤ b * (a / b) := mul_le_mul_of_nonneg_left h1 hb.le
  have h3 : b * (a / b) = a := by
    rw [mul_comm]
    exact div_mul_cancel₀ a (ne_of_gt hb)
  linarith

theorem jsFmod_lt {a : ℚ} (b : ℚ) (hb : 0 < b) : jsFmod a b < b := by
  unfold jsFmod
  have h1 : a / b < (⌊a / b⌋ : ℚ) + 1 := Int.lt_floor_add_one _
  have h2 : a < b * ((⌊a / b⌋ : ℚ) + 1) := by
    calc a = a / b * b := (div_mul_cancel₀ a (ne_of_gt hb)).symm
    _ < ((⌊a / b⌋ : ℚ) + 1) * b := mul_lt_mul_of_pos_right h1 hb
    _ = b * ((⌊a / b⌋ : ℚ) + 1) := mul_comm _ _
  nlinarith

theorem jsFmod_natCast (x n : ℕ) (hn : 0 < n) :
    jsFmod (x : ℚ) (n : ℚ) = ((x % n : ℕ) : ℚ) := by
  unfold jsFmod
  rw [floor_cast_div_nat x n hn, Int.cast_natCast]
  have hmod : n * (x / n) + x % n = x := Nat.div_add_mod x n
  have hcast : ((n : ℚ)) * ((x / n : ℕ) : ℚ) + ((x % n : ℕ) : ℚ) = (x : ℚ) := by
    rw [← Nat.cast_mul, ← Nat.cast_add, hmod]
  linarith

theorem mem_field_digit {n : ℕ} {c : Char} (hc : c ∈ pad2 (natDigits n)) :
    isDigitChar c = true := by
  rcases mem_pad2 hc with rfl | hm
  · decide
  · exact natDigits_all_digit n c hm

theorem digitsVal_field (n : ℕ) : digitsVal (pad2 (natDigits n)) = n := by
  rw [digitsVal_pad2, digitsVal_natDigits]

theorem jsNumberL_field (n : ℕ) : jsNumberL (pad2 (natDigits n)) = some (n : ℤ) := by
  rw [jsNumberL_digits (pad2_ne_nil _) (fun c hc => mem_field_digit hc), digitsVal_field]

theorem parseTimeCore_three_fields {A B C : List Char}
    (hA : ∀ c ∈ A, isDigitChar c = true) (hB : ∀ c ∈ B, isDigitChar c = true)
    (hC : ∀ c ∈ C, isDigitChar c = true) :
    parseTimeCore (A ++ ':' :: (B ++ ':' :: C)) =
      jsAdd (jsAdd (jsMul (jsNumberL A) 3600) (jsMul (jsNumberL B) 60)) (jsNumberL C) := by
  have hspA : ' ' ∉ A := fun hm => isDigitChar_ne_space (hA _ hm) rfl
  have hspB : ' ' ∉ B := fun hm => isDigitChar_ne_space (hB _ hm) rfl
  have hspC : ' ' ∉ C := fun hm => isDigitChar_ne_space (hC _ hm) rfl
  have hclA : ':' ∉ A := fun hm => isDigitChar_ne_colon (hA _ hm) rfl
  have hclB : ':' ∉ B := fun hm => isDigitChar_ne_colon (hB _ hm) rfl
  have hclC : ':' ∉ C := fun hm => isDigitChar_ne_colon (hC _ hm) rfl
  have hsp : ' ' ∉ A ++ ':' :: (B ++ ':' :: C) := by
    intro hm
    rcases List.mem_append.1 hm with h1 | h2
    · exact hspA h1
    · rcases List.mem_cons.1 h2 with h3 | h4
      · exact absurd h3 (by decide)
      · rcases List.mem_append.1 h4 with h5 | h6
        · exact hspB h5
        · rcases List.mem_cons.1 h6 with h7 | h8
          · exact absurd h7 (by decide)
          · exact hspC h8
  have htok : splitOnChar ' ' (A ++ ':' :: (B ++ ':' :: C)) = [A ++ ':' :: (B ++ ':' :: C)] :=
    splitOnChar_of_not_mem hsp
  have hsplit : splitOnChar ':' (A ++ ':' :: (B ++ ':' :: C)) = [A, B, C] := by
    rw [splitOnChar_append _ hclA, splitOnChar_append _ hclB, splitOnChar_of_not_mem hclC]
  simp only [parseTimeCore, htok, List.headD_cons, hsplit, List.map_cons, List.map_nil]

/-! # Claim theorems -/

/-- Claim C3: for every nonnegative integer number of seconds `x`,
`parseTimeToSeconds (formatSecondsToTime x) = x`. -/
theorem parse_format_roundTrip (x : ℕ) :
    parseTimeToSeconds (formatSecondsToTime (some (x : ℚ))) = some (x : ℤ) := by
  have hx : ¬((x : ℚ) < 0) := not_lt.2 (by positivity)
  have e3600 : ((3600 : ℕ) : ℚ) = (3600 : ℚ) := by norm_num
  have e60 : ((60 : ℕ) : ℚ) = (60 : ℚ) := by norm_num
  have hH : (⌊(x : ℚ) / 3600⌋).toNat = x / 3600 := by
    rw [← e3600, floor_cast_div_nat x 3600 (by omega)]
    exact Int.toNat_natCast _
  have hMq : jsFmod (x : ℚ) 3600 = ((x % 3600 : ℕ) : ℚ) := by
    rw [← e3600]
    exact jsFmod_natCast x 3600 (by omega)
  have hM : (⌊jsFmod (x : ℚ) 3600 / 60⌋).toNat = x % 3600 / 60 := by
    rw [hMq, ← e60, floor_cast_div_nat _ 60 (by omega)]
    exact Int.toNat_natCast _
  have hSq : jsFmod (x : ℚ) 60 = ((x % 60 : ℕ) : ℚ) := by
    rw [← e60]
    exact jsFmod_natCast x 60 (by omega)
  have hS : (⌊jsFmod (x : ℚ) 60⌋).toNat = x % 60 := by
    rw [hSq, Int.floor_natCast]
    exact Int.toNat_natCast _
  have hformat : formatSecondsToTimeL (some (x : ℚ)) =
      pad2 (natDigits (x / 3600)) ++ ':' ::
        (pad2 (natDigits (x % 3600 / 60)) ++ ':' :: pad2 (natDigits (x % 60))) := by
    simp only [formatSecondsToTimeL]
    rw [if_neg hx, hH, hM, hS]
  show parseTimeCore (formatSecondsToTimeL (some (x : ℚ))) = some (x : ℤ)
  rw [hformat,
    parseTimeCore_three_fields (fun c hc => mem_field_digit hc) (fun c hc => mem_field_digit hc)
      (fun c hc => mem_field_digit hc),
    jsNumberL_field, jsNumberL_field, jsNumberL_field]
  show some (((x / 3600 : ℕ) : ℤ) * 3600 + ((x % 3600 / 60 : ℕ) : ℤ) * 60 + ((x % 60 : ℕ) : ℤ)) =
    some (x : ℤ)
  congr 1
  omega

/-- Witness for `parse_format_roundTrip` at 3726 seconds. -/
theorem parse_format_roundTrip_witness :
    parseTimeToSeconds (formatSecondsToTime (some ((3726 : ℕ) : ℚ))) = some ((3726 : ℕ) : ℤ) :=
  parse_format_roundTrip 3726

/-- Claim C6, counterexample: the malformed time string `"ab:cd"` does not
parse to 0 seconds — both fields convert to NaN, so `parseTimeToSeconds`
returns NaN (`none`), not `0`. -/
theorem parseTime_nan_counterexample :
    parseTimeToSeconds "ab:cd" = none ∧ parseTimeToSeconds "ab:cd" ≠ some 0 := by
  constructor
  · decide
  · decide

/-- Claim C6 as amended: `parseTimeToSeconds` returns 0 (after logging a
warning) exactly for inputs whose first space-separated token does not split
into two or three colon-separated fields; a token with two or three fields is
evaluated arithmetically, which yields NaN — not 0 — when a field is not
numeric.  The function is total (never throws) by construction. -/
theorem parseTime_malformed_length (s : String)
    (h2 : (splitOnChar ':' ((splitOnChar ' ' s.data).headD [])).length ≠ 2)
    (h3 : (splitOnChar ':' ((splitOnChar ' ' s.data).headD [])).length ≠ 3) :
    parseTimeToSeconds s = some 0 := by
  rcases hp : splitOnChar ':' ((splitOnChar ' ' s.data).headD []) with _ | ⟨a, _ | ⟨b, _ | ⟨c, rest⟩⟩⟩
  · simp only [parseTimeToSeconds, parseTimeCore, hp, List.map_nil]
  · simp only [parseTimeToSeconds, parseTimeCore, hp, List.map_cons, List.map_nil]
  · rw [hp] at h2
    simp at h2
  · rcases rest with _ | ⟨d, rest'⟩
    · rw [hp] at h3
      simp at h3
    · simp only [parseTimeToSeconds, parseTimeCore, hp, List.map_cons]

/-- Witness for `parseTime_malformed_length` at the concrete input
`"hello"` (a single colon-field). -/
theorem parseTime_malformed_length_witness : parseTimeToSeconds "hello" = some 0 :=
  parseTime_malformed_length "hello" (by decide) (by decide)

/-- Claim C10: `formatSecondsToTime` returns exactly `"00:00:00"` on NaN and
on negative inputs, and on every nonnegative input it returns a
colon-separated string of three zero-padded decimal fields whose minutes and
seconds values are strictly less than 60. -/
theorem formatSeconds_spec :
    formatSecondsToTime none = "00:00:00" ∧
    (∀ t : ℚ, t < 0 → formatSecondsToTime (some t) = "00:00:00") ∧
    (∀ t : ℚ, 0 ≤ t → ∃ H M S : ℕ,
      (formatSecondsToTime (some t)).data =
        pad2 (natDigits H) ++ ':' :: (pad2 (natDigits M) ++ ':' :: pad2 (natDigits S)) ∧
      M < 60 ∧ S < 60 ∧
      2 ≤ (pad2 (natDigits H)).length ∧ 2 ≤ (pad2 (natDigits M)).length ∧
      2 ≤ (pad2 (natDigits S)).length) := by
  refine ⟨rfl, ?_, ?_⟩
  · intro t ht
    show (⟨formatSecondsToTimeL (some t)⟩ : String) = "00:00:00"
    simp only [formatSecondsToTimeL]
    rw [if_pos ht]
  · intro t ht
    refine ⟨(⌊t / 3600⌋).toNat, (⌊jsFmod t 3600 / 60⌋).toNat, (⌊jsFmod t 60⌋).toNat,
      ?_, ?_, ?_, two_le_pad2_length _, two_le_pad2_length _, two_le_pad2_length _⟩
    · show formatSecondsToTimeL (some t) = _
      simp only [formatSecondsToTimeL]
      rw [if_neg (not_lt.2 ht)]
    · have hlt : ⌊jsFmod t 3600 / 60⌋ < 60 := by
        rw [Int.floor_lt]
        rw [div_lt_iff₀ (by norm_num : (0 : ℚ) < 60)]
        calc jsFmod t 3600 < 3600 := jsFmod_lt 3600 (by norm_num)
        _ = 60 * 60 := by norm_num
        _ ≤ (60 : ℚ) * 60 := le_refl _
      omega
    · have hlt : ⌊jsFmod t 60⌋ < 60 := by
        rw [Int.floor_lt]
        exact_mod_cast jsFmod_lt 60 (by norm_num : (0 : ℚ) < 60)
      omega

/-- Witness for `formatSeconds_spec`: the negative input −5 formats to
`"00:00:00"`, and the input 3726 admits the padded three-field
decomposition. -/
theorem formatSeconds_spec_witness :
    formatSecondsToTime (some (-5 : ℚ)) = "00:00:00" ∧
    (∃ H M S : ℕ,
      (formatSecondsToTime (some (3726 : ℚ))).data =
        pad2 (natDigits H) ++ ':' :: (pad2 (natDigits M) ++ ':' :: pad2 (natDigits S)) ∧
      M < 60 ∧ S < 60 ∧
      2 ≤ (pad2 (natDigits H)).length ∧ 2 ≤ (pad2 (natDigits M)).length ∧
      2 ≤ (pad2 (natDigits S)).length) :=
  ⟨formatSeconds_spec.2.1 (-5) (by norm_num), formatSeconds_spec.2.2 3726 (by norm_num)⟩

/-! ## Renderer helper lemmas -/

theorem parse_twoHours : parseTimeToSeconds "02:00:00" = some 7200 := by decide

theorem defaultYMax_eq : defaultYMax = 7200 := by decide

theorem foldl_min_le_init (t : ℚ) (ts : List ℚ) : ts.foldl min t ≤ t := by
  induction ts generalizing t with
  | nil => exact le_refl t
  | cons x xs ih => exact le_trans (ih (min t x)) (min_le_left t x)

theorem le_foldl_max_init (t : ℚ) (ts : List ℚ) : t ≤ ts.foldl max t := by
  induction ts generalizing t with
  | nil => exact le_refl t
  | cons x xs ih => exact le_trans (le_max_left t x) (ih (max t x))

theorem computeYScale_spec (l : List ℚ) (h : ∀ t ∈ l, 0 ≤ t) :
    (computeYScale l).1 < (computeYScale l).2 ∧
    (l ≠ [] → 30 ≤ (computeYScale l).2 - (computeYScale l).1) ∧
    (l = [] → (computeYScale l).1 = 0 ∧ (computeYScale l).2 = 7200) := by
  cases l with
  | nil =>
    refine ⟨?_, fun hne => absurd rfl hne, fun _ => ⟨rfl, defaultYMax_eq⟩⟩
    show (0 : ℚ) < defaultYMax
    rw [defaultYMax_eq]
    norm_num
  | cons t ts =>
    have ht0 : 0 ≤ t := h t (List.mem_cons_self _ _)
    have hminle : ts.foldl min t ≤ t := foldl_min_le_init t ts
    have hlemax : t ≤ ts.foldl max t := le_foldl_max_init t ts
    have hminmax : ts.foldl min t ≤ ts.foldl max t := le_trans hminle hlemax
    have hmax0 : 0 ≤ ts.foldl max t := le_trans ht0 hlemax
    have hb : (30 : ℚ) ≤ max ((ts.foldl max t - ts.foldl min t) * (1 / 10)) 30 :=
      le_max_right _ _
    show (computeYScale (t :: ts)).1 < (computeYScale (t :: ts)).2 ∧ _
    refine ⟨?_, fun _ => ?_, fun hnil => absurd hnil (by simp)⟩
    · show max 0 (ts.foldl min t - max ((ts.foldl max t - ts.foldl min t) * (1 / 10)) 30) <
        ts.foldl max t + max ((ts.foldl max t - ts.foldl min t) * (1 / 10)) 30
      rcases le_total (ts.foldl min t - max ((ts.foldl max t - ts.foldl min t) * (1 / 10)) 30) 0
        with hc | hc
      · rw [max_eq_left hc]
        linarith
      · rw [max_eq_right hc]
        linarith
    · show (30 : ℚ) ≤ ts.foldl max t + max ((ts.foldl max t - ts.foldl min t) * (1 / 10)) 30 -
        max 0 (ts.foldl min t - max ((ts.foldl max t - ts.foldl min t) * (1 / 10)) 30)
      rcases le_total (ts.foldl min t - max ((ts.foldl max t - ts.foldl min t) * (1 / 10)) 30) 0
        with hc | hc
      · rw [max_eq_left hc]
        linarith
      · rw [max_eq_right hc]
        linarith

theorem processData_yScale (s : RendererState) :
    (processData s).yMin =
      (computeYScale (((processData s).points.map PointR.timeSeconds).filterMap id)).1 ∧
    (processData s).yMax =
      (computeYScale (((processData s).points.map PointR.timeSeconds).filterMap id)).2 := by
  simp only [processData]
  split <;> exact ⟨rfl, rfl⟩

theorem processData_contentWidth (s : RendererState) :
    (processData s).totalGraphContentWidth = contentWidthOf s := by
  simp only [processData]
  split <;> rfl

theorem processData_carries (s : RendererState) :
    (processData s).startDateMs = s.startDateMs ∧ (processData s).goalDateMs = s.goalDateMs ∧
    (processData s).canvasWidth = s.canvasWidth ∧ (processData s).viewMode = s.viewMode := by
  simp only [processData]
  split <;> exact ⟨rfl, rfl, rfl, rfl⟩

/-- Claim C1: for every valid time range (goal strictly after start) and
every view state, the timeline mapper sends the start date to `leftPadding`,
the goal date to `leftPadding + totalGraphContentWidth`, and in general
computes `leftPadding + (date − start)/(goal − start) * contentWidth`. -/
theorem mapTimeToX_endpoints (s : RendererState) (h : s.startDateMs < s.goalDateMs) :
    mapTimeToX s.startDateMs (fullSpanOf s) (contentWidthOf s) s.startDateMs = padLeft ∧
    mapTimeToX s.startDateMs (fullSpanOf s) (contentWidthOf s) s.goalDateMs =
      padLeft + contentWidthOf s ∧
    ∀ d : ℤ, mapTimeToX s.startDateMs (fullSpanOf s) (contentWidthOf s) d =
      padLeft + ((d - s.startDateMs : ℤ) : ℚ) / ((s.goalDateMs - s.startDateMs : ℤ) : ℚ) *
        contentWidthOf s := by
  have hspan : fullSpanOf s = s.goalDateMs - s.startDateMs :=
    max_eq_right (by omega : (1 : ℤ) ≤ s.goalDateMs - s.startDateMs)
  have hpos : (0 : ℤ) < fullSpanOf s := by rw [hspan]; omega
  have hq : ((s.goalDateMs - s.startDateMs : ℤ) : ℚ) ≠ 0 := by
    have h0 : (0 : ℤ) < s.goalDateMs - s.startDateMs := by omega
    exact ne_of_gt (by exact_mod_cast h0)
  have key : ∀ d : ℤ, mapTimeToX s.startDateMs (fullSpanOf s) (contentWidthOf s) d =
      padLeft + ((d - s.startDateMs : ℤ) : ℚ) / ((s.goalDateMs - s.startDateMs : ℤ) : ℚ) *
        contentWidthOf s := by
    intro d
    unfold mapTimeToX
    rw [if_pos hpos, hspan]
  refine ⟨?_, ?_, key⟩
  · rw [key]
    simp
  · rw [key, div_self hq, one_mul]

/-- Witness for `mapTimeToX_endpoints` on a concrete one-day range. -/
theorem mapTimeToX_endpoints_witness :
    mapTimeToX c1WitnessState.startDateMs (fullSpanOf c1WitnessState)
        (contentWidthOf c1WitnessState) c1WitnessState.startDateMs = padLeft ∧
    mapTimeToX c1WitnessState.startDateMs (fullSpanOf c1WitnessState)
        (contentWidthOf c1WitnessState) c1WitnessState.goalDateMs =
      padLeft + contentWidthOf c1WitnessState :=
  ⟨(mapTimeToX_endpoints c1WitnessState (by decide)).1,
   (mapTimeToX_endpoints c1WitnessState (by decide)).2.1⟩

/-- Claim C4 (Scenario A): with start `"01:25:00"` on 2025-03-30, goal
`"01:10:00"` on 2025-05-17 and no activities, `processData` produces exactly
the start and goal points (durations 5100 s and 4200 s), no workout columns,
and the vertical scale `yMin = 4110`, `yMax = 5190` (buffer
`max((5100−4200)*0.1, 30) = 90`, `yMin` clamped at ≥ 0). -/
theorem scenarioA_processData :
    (processData scenarioAState).points.map PointR.type =
      [PointType.start, PointType.goal] ∧
    (processData scenarioAState).points.map PointR.timeSeconds =
      [some 5100, some 4200] ∧
    (processData scenarioAState).workoutColumns = [] ∧
    (processData scenarioAState).yMin = 4110 ∧
    (processData scenarioAState).yMax = 5190 := by
  have h1 : parseTimeToSeconds "01:25:00" = some 5100 := by decide
  have h2 : parseTimeToSeconds "01:10:00" = some 4200 := by decide
  have h3 : startOfDayMs 1743292800000 = 1743292800000 := by decide
  have h4 : startOfDayMs 1747440000000 = 1747440000000 := by decide
  norm_num [scenarioAState, mkInitialState, processData, h1, h2, h3, h4, List.foldl_nil, List.foldl_cons,
    sortPointsByDate, insertByDate, List.filterMap_cons, List.filterMap_nil, List.map_cons,
    List.map_nil, Option.map_some, Option.map_none, id, computeYScale, constrainViewOffset,
    fullSpanOf, effectiveSpanOf, contentWidthOf, graphWidth, mapTimeToX, padLeft, padRight,
    padTop, padBottom, msPerDay, threeWeeksInMillis, max_def, min_def]

/-- Claim C8: for a chronologically adjacent pair of points, the segment
into a goal point is dashed exactly when the prior point's date lies in the
same or the immediately preceding Monday-start week as the goal date, and
omitted exactly when the gap is larger; every segment not ending at the goal
point is solid. -/
theorem segmentKind_spec (currentPoint nextPoint : PointR) :
    (segmentKind currentPoint nextPoint = SegmentStyle.dashed ↔
      nextPoint.type = PointType.goal ∧
        (areDatesInSameWeek currentPoint.dateMs nextPoint.dateMs = true ∨
         isDateInPreviousWeek currentPoint.dateMs nextPoint.dateMs = true)) ∧
    (segmentKind currentPoint nextPoint = SegmentStyle.omitted ↔
      nextPoint.type = PointType.goal ∧
        ¬(areDatesInSameWeek currentPoint.dateMs nextPoint.dateMs = true ∨
          isDateInPreviousWeek currentPoint.dateMs nextPoint.dateMs = true)) ∧
    (segmentKind currentPoint nextPoint = SegmentStyle.solid ↔
      nextPoint.type ≠ PointType.goal) := by
  unfold segmentKind
  split_ifs with h1 h2 <;> simp_all

/-- Witness for `segmentKind_spec`: a trial point on Monday 2025-05-05 feeds
a dashed segment into a goal point on Saturday 2025-05-17 (immediately
preceding week). -/
theorem segmentKind_spec_witness :
    segmentKind ⟨0, 1746403200000, none, PointType.trial⟩
      ⟨0, 1747440000000, none, PointType.goal⟩ = SegmentStyle.dashed :=
  (segmentKind_spec _ _).1.mpr ⟨rfl, by decide⟩

/-- Claim C9, counterexample: with both race-time strings the malformed
`"-1:30"` (parsed duration −30 s), `processData` produces the degenerate
scale `yMin = yMax = 0`, so `yMin < yMax` does not always hold. -/
theorem yScale_counterexample :
    (processData negScenarioState).yMin = 0 ∧ (processData negScenarioState).yMax = 0 ∧
    ¬((processData negScenarioState).yMin < (processData negScenarioState).yMax) := by
  have h1 : parseTimeToSeconds "-1:30" = some (-30) := by decide
  have h3 : startOfDayMs 0 = 0 := by decide
  have h4 : startOfDayMs 86400000 = 86400000 := by decide
  norm_num [negScenarioState, mkInitialState, processData, h1, h3, h4, List.foldl_nil, List.foldl_cons,
    sortPointsByDate, insertByDate, List.filterMap_cons, List.filterMap_nil, List.map_cons,
    List.map_nil, Option.map_some, Option.map_none, id, computeYScale, constrainViewOffset,
    fullSpanOf, effectiveSpanOf, contentWidthOf, graphWidth, mapTimeToX, padLeft, padRight,
    padTop, padBottom, msPerDay, threeWeeksInMillis, max_def, min_def]

/-- Claim C9 as amended: after a `processData` run in which every non-NaN
point duration is nonnegative (true for well-formed race-time strings, and
always true for activity durations, which are checked positive), the
vertical scale is non-degenerate: `yMin < yMax`; with at least one valid
duration `yMax − yMin ≥ 30` (the buffer floor), and with none `yMin = 0`
and `yMax = 7200`.  A negative parsed duration — possible only from a
malformed race-time string — can collapse the range (see the
counterexample). -/
theorem yScale_nonneg_spec (s : RendererState)
    (h : ∀ t ∈ ((processData s).points.map PointR.timeSeconds).filterMap id, 0 ≤ t) :
    (processData s).yMin < (processData s).yMax ∧
    (((processData s).points.map PointR.timeSeconds).filterMap id ≠ [] →
      30 ≤ (processData s).yMax - (processData s).yMin) ∧
    (((processData s).points.map PointR.timeSeconds).filterMap id = [] →
      (processData s).yMin = 0 ∧ (processData s).yMax = 7200) := by
  obtain ⟨h1, h2⟩ := processData_yScale s
  obtain ⟨k1, k2, k3⟩ :=
    computeYScale_spec (((processData s).points.map PointR.timeSeconds).filterMap id) h
  rw [h1, h2]
  exact ⟨k1, k2, k3⟩

/-- Witness for `yScale_nonneg_spec` on a one-day plan with race times
`"01:00:00"` and `"00:50:00"`. -/
theorem yScale_nonneg_spec_witness :
    (processData c9WitnessState).yMin < (processData c9WitnessState).yMax :=
  (yScale_nonneg_spec c9WitnessState (by
    have h1 : parseTimeToSeconds "01:00:00" = some 3600 := by decide
    have h2 : parseTimeToSeconds "00:50:00" = some 3000 := by decide
    have h3 : startOfDayMs 0 = 0 := by decide
    have h4 : startOfDayMs 86400000 = 86400000 := by decide
    norm_num [c9WitnessState, mkInitialState, processData, h1, h2, h3, h4, List.foldl_nil, List.foldl_cons,
      sortPointsByDate, insertByDate, List.filterMap_cons, List.filterMap_nil, List.map_cons,
      List.map_nil, Option.map_some, Option.map_none, id, computeYScale, constrainViewOffset,
      fullSpanOf, effectiveSpanOf, contentWidthOf, graphWidth, mapTimeToX, padLeft, padRight,
      padTop, padBottom, msPerDay, threeWeeksInMillis, max_def, min_def])).1

/-! ## Pipeline-state evaluations for the pan and slider scenarios -/

theorem panScenarioInit_eval :
    panScenarioInit =
      { startRaceTime := "01:25:00", startDateMs := 0, goalRaceTime := "01:10:00",
        goalDateMs := 3628800000, activities := [], canvasWidth := 800, canvasHeight := 500,
        viewMode := ViewMode.full, viewOffsetX := 65 / 7, sliderX := some 10,
        isDraggingSlider := false, isDraggingGraph := false, dragStartX := 0,
        dragStartOffsetX := 0, totalGraphContentWidth := 780,
        points := [⟨135 / 7, 0, some 5100, PointType.start⟩,
                   ⟨5595 / 7, 3628800000, some 4200, PointType.goal⟩],
        workoutColumns := [], yMin := 4110, yMax := 5190,
        contentMinX := 135 / 7, contentMaxX := 5595 / 7 } := by
  have h1 : parseTimeToSeconds "01:25:00" = some 5100 := by decide
  have h2 : parseTimeToSeconds "01:10:00" = some 4200 := by decide
  have h3 : startOfDayMs 0 = 0 := by decide
  have h4 : startOfDayMs 3628800000 = 3628800000 := by decide
  norm_num [panScenarioInit, initRenderer, processData, h1, h2, h3, h4, List.foldl_nil, List.foldl_cons,
    sortPointsByDate, insertByDate, List.filterMap_cons, List.filterMap_nil, List.map_cons,
    List.map_nil, Option.map_some, Option.map_none, id, computeYScale, constrainViewOffset,
    fullSpanOf, effectiveSpanOf, contentWidthOf, graphWidth, mapTimeToX, padLeft, padRight,
    padTop, padBottom, msPerDay, threeWeeksInMillis, max_def, min_def]

theorem panScenario3w_eval :
    panScenario3w =
      { startRaceTime := "01:25:00", startDateMs := 0, goalRaceTime := "01:10:00",
        goalDateMs := 3628800000, activities := [], canvasWidth := 800, canvasHeight := 500,
        viewMode := ViewMode.threeWeeks, viewOffsetX := 130 / 7, sliderX := some 10,
        isDraggingSlider := false, isDraggingGraph := false, dragStartX := 0,
        dragStartOffsetX := 0, totalGraphContentWidth := 1560,
        points := [⟨200 / 7, 0, some 5100, PointType.start⟩,
                   ⟨11120 / 7, 3628800000, some 4200, PointType.goal⟩],
        workoutColumns := [], yMin := 4110, yMax := 5190,
        contentMinX := 200 / 7, contentMaxX := 11120 / 7 } := by
  show setViewMode ViewMode.threeWeeks panScenarioInit = _
  rw [panScenarioInit_eval]
  have h1 : parseTimeToSeconds "01:25:00" = some 5100 := by decide
  have h2 : parseTimeToSeconds "01:10:00" = some 4200 := by decide
  have h3 : startOfDayMs 0 = 0 := by decide
  have h4 : startOfDayMs 3628800000 = 3628800000 := by decide
  norm_num [setViewMode, processData, h1, h2, h3, h4, List.foldl_nil, List.foldl_cons,
    sortPointsByDate, insertByDate, List.filterMap_cons, List.filterMap_nil, List.map_cons,
    List.map_nil, Option.map_some, Option.map_none, id, computeYScale, constrainViewOffset,
    fullSpanOf, effectiveSpanOf, contentWidthOf, graphWidth, mapTimeToX, padLeft, padRight,
    padTop, padBottom, msPerDay, threeWeeksInMillis, max_def, min_def]
  decide

theorem panScenarioPressed_eval :
    panScenarioPressed =
      { startRaceTime := "01:25:00", startDateMs := 0, goalRaceTime := "01:10:00",
        goalDateMs := 3628800000, activities := [], canvasWidth := 800, canvasHeight := 500,
        viewMode := ViewMode.threeWeeks, viewOffsetX := 130 / 7, sliderX := some 10,
        isDraggingSlider := false, isDraggingGraph := true, dragStartX := 789,
        dragStartOffsetX := 130 / 7, totalGraphContentWidth := 1560,
        points := [⟨200 / 7, 0, some 5100, PointType.start⟩,
                   ⟨11120 / 7, 3628800000, some 4200, PointType.goal⟩],
        workoutColumns := [], yMin := 4110, yMax := 5190,
        contentMinX := 200 / 7, contentMaxX := 11120 / 7 } := by
  show handleMousePressed panScenario3w 789 200 = _
  rw [panScenario3w_eval]
  simp only [handleMousePressed, sliderTrackY, knobWidth, knobHeight, pointSize, graphWidth,
    padLeft, padRight, padTop, padBottom]
  norm_num [max_def]

theorem panScenarioDragged_eval :
    panScenarioDragged =
      { startRaceTime := "01:25:00", startDateMs := 0, goalRaceTime := "01:10:00",
        goalDateMs := 3628800000, activities := [], canvasWidth := 800, canvasHeight := 500,
        viewMode := ViewMode.threeWeeks, viewOffsetX := 5590 / 7, sliderX := some 10,
        isDraggingSlider := false, isDraggingGraph := true, dragStartX := 789,
        dragStartOffsetX := 130 / 7, totalGraphContentWidth := 1560,
        points := [⟨200 / 7, 0, some 5100, PointType.start⟩,
                   ⟨11120 / 7, 3628800000, some 4200, PointType.goal⟩],
        workoutColumns := [], yMin := 4110, yMax := 5190,
        contentMinX := 200 / 7, contentMaxX := 11120 / 7 } := by
  show handleMouseDragged panScenarioPressed 0 = _
  rw [panScenarioPressed_eval]
  simp only [handleMouseDragged, constrainViewOffset, constrainP5, graphWidth, padLeft, padRight]
  norm_num [max_def, min_def]

theorem sliderScenarioInit_eval :
    sliderScenarioInit =
      { startRaceTime := "01:25:00", startDateMs := 46800000, goalRaceTime := "01:10:00",
        goalDateMs := 50400000, activities := [], canvasWidth := 800, canvasHeight := 500,
        viewMode := ViewMode.full, viewOffsetX := 0, sliderX := some 10,
        isDraggingSlider := false, isDraggingGraph := false, dragStartX := 0,
        dragStartOffsetX := 0, totalGraphContentWidth := 780,
        points := [⟨-770, 46800000, some 5100, PointType.start⟩,
                   ⟨-770, 50400000, some 4200, PointType.goal⟩],
        workoutColumns := [], yMin := 4110, yMax := 5190,
        contentMinX := -770, contentMaxX := -770 } := by
  have h1 : parseTimeToSeconds "01:25:00" = some 5100 := by decide
  have h2 : parseTimeToSeconds "01:10:00" = some 4200 := by decide
  have h3 : startOfDayMs 46800000 = 0 := by decide
  have h4 : startOfDayMs 50400000 = 0 := by decide
  norm_num [sliderScenarioInit, initRenderer, processData, h1, h2, h3, h4, List.foldl_nil, List.foldl_cons,
    sortPointsByDate, insertByDate, List.filterMap_cons, List.filterMap_nil, List.map_cons,
    List.map_nil, Option.map_some, Option.map_none, id, computeYScale, constrainViewOffset,
    fullSpanOf, effectiveSpanOf, contentWidthOf, graphWidth, mapTimeToX, padLeft, padRight,
    padTop, padBottom, msPerDay, threeWeeksInMillis, max_def, min_def]

theorem sliderScenarioPressed_eval :
    sliderScenarioPressed =
      { startRaceTime := "01:25:00", startDateMs := 46800000, goalRaceTime := "01:10:00",
        goalDateMs := 50400000, activities := [], canvasWidth := 800, canvasHeight := 500,
        viewMode := ViewMode.full, viewOffsetX := 0, sliderX := some 10,
        isDraggingSlider := true, isDraggingGraph := false, dragStartX := 0,
        dragStartOffsetX := 0, totalGraphContentWidth := 780,
        points := [⟨-770, 46800000, some 5100, PointType.start⟩,
                   ⟨-770, 50400000, some 4200, PointType.goal⟩],
        workoutColumns := [], yMin := 4110, yMax := 5190,
        contentMinX := -770, contentMaxX := -770 } := by
  show handleMousePressed sliderScenarioInit 10 380 = _
  rw [sliderScenarioInit_eval]
  simp only [handleMousePressed, sliderTrackY, knobWidth, knobHeight, pointSize, graphWidth,
    padLeft, padRight, padTop, padBottom]
  norm_num

theorem sliderScenarioDragged_eval :
    sliderScenarioDragged =
      { startRaceTime := "01:25:00", startDateMs := 46800000, goalRaceTime := "01:10:00",
        goalDateMs := 50400000, activities := [], canvasWidth := 800, canvasHeight := 500,
        viewMode := ViewMode.full, viewOffsetX := 0, sliderX := some 10,
        isDraggingSlider := true, isDraggingGraph := false, dragStartX := 0,
        dragStartOffsetX := 0, totalGraphContentWidth := 780,
        points := [⟨-770, 46800000, some 5100, PointType.start⟩,
                   ⟨-770, 50400000, some 4200, PointType.goal⟩],
        workoutColumns := [], yMin := 4110, yMax := 5190,
        contentMinX := -770, contentMaxX := -770 } := by
  show handleMouseDragged sliderScenarioPressed 400 = _
  rw [sliderScenarioPressed_eval]
  simp only [handleMouseDragged, constrainP5, padLeft]
  norm_num [max_def, min_def]

/-! ## The pan-clamp claim -/

/-- Claim C2, counterexample: in the 3-week view of a 42-day plan
(content width 1560, graph width 780) a pan drag ends with
`viewOffsetX = 5590/7 ≈ 798.6`, which exceeds
`max 0 (contentWidthPixels − viewportWidth) = 780`; the centering exception
does not apply, since the content span (1560) is wider than the graph. -/
theorem panClamp_counterexample :
    panScenarioDragged.viewOffsetX = 5590 / 7 ∧
    panScenarioDragged.totalGraphContentWidth = 1560 ∧
    graphWidth panScenarioDragged = 780 ∧
    graphWidth panScenarioDragged ≤
      panScenarioDragged.contentMaxX - panScenarioDragged.contentMinX ∧
    max 0 (panScenarioDragged.totalGraphContentWidth - graphWidth panScenarioDragged) <
      panScenarioDragged.viewOffsetX := by
  rw [panScenarioDragged_eval]
  norm_num [graphWidth, padLeft, padRight, max_def]

/-- Claim C2 as amended: every pan-drag move and every recompute flow ends
in `constrainViewOffset`, whose output offset is always ≥ 0; when the
content span `contentMaxX − contentMinX` is at least the graph width it lies
in `[max 0 (contentMinX − leftPadding), max 0 (contentMaxX − (canvasWidth −
rightPadding))]` — bounds built from the content extent, not from
`max 0 (contentWidthPixels − viewportWidth)` as the claim states — and when
the content span is narrower the offset is the centering value clamped at a
0 floor. -/
theorem constrainViewOffset_bounds (s : RendererState) :
    0 ≤ (constrainViewOffset s).viewOffsetX ∧
    (graphWidth s ≤ s.contentMaxX - s.contentMinX →
      max 0 (s.contentMinX - padLeft) ≤ (constrainViewOffset s).viewOffsetX ∧
      (constrainViewOffset s).viewOffsetX ≤
        max 0 (s.contentMaxX - (s.canvasWidth - padRight))) ∧
    (s.contentMaxX - s.contentMinX < graphWidth s →
      (constrainViewOffset s).viewOffsetX =
        max 0 (s.contentMinX - padLeft -
          (graphWidth s - (s.contentMaxX - s.contentMinX)) / 2)) := by
  simp only [constrainViewOffset]
  refine ⟨le_max_left _ _, fun hge => ?_, fun hlt => ?_⟩
  · rw [if_neg (not_lt.2 hge)]
    have hgw : s.canvasWidth - padLeft - padRight ≤ graphWidth s := le_max_right _ _
    have hkey : s.contentMinX - padLeft ≤ s.contentMaxX - (s.canvasWidth - padRight) := by
      linarith
    constructor
    · exact le_trans (le_max_left _ _) (le_max_right 0 _)
    · apply max_le
      · exact le_max_left 0 _
      · apply max_le
        · exact max_le (le_max_left 0 _) (le_trans hkey (le_max_right 0 _))
        · exact min_le_right _ _
  · rw [if_pos hlt]

/-- Witness for `constrainViewOffset_bounds` at the 3-week view of the
42-day plan, whose content is wider than the graph. -/
theorem constrainViewOffset_bounds_witness :
    0 ≤ (constrainViewOffset panScenario3w).viewOffsetX ∧
    max 0 (panScenario3w.contentMinX - padLeft) ≤
      (constrainViewOffset panScenario3w).viewOffsetX ∧
    (constrainViewOffset panScenario3w).viewOffsetX ≤
      max 0 (panScenario3w.contentMaxX - (panScenario3w.canvasWidth - padRight)) :=
  ⟨(constrainViewOffset_bounds panScenario3w).1,
   ((constrainViewOffset_bounds panScenario3w).2.1
     (by rw [panScenario3w_eval]; norm_num [graphWidth, padLeft, padRight, max_def])).1,
   ((constrainViewOffset_bounds panScenario3w).2.1
     (by rw [panScenario3w_eval]; norm_num [graphWidth, padLeft, padRight, max_def])).2⟩

/-! ## The view-mode toggle claim -/

/-- Claim C5, counterexample: toggling the 42-day plan from full view to the
3-week view leaves `viewOffsetX = 130/7 ≠ 0` — the offset is set to 0 but
immediately re-clamped to the content bounds, so the final offset is not 0. -/
theorem setViewMode_offset_counterexample :
    panScenarioInit.viewMode = ViewMode.full ∧
    setViewMode ViewMode.threeWeeks panScenarioInit = panScenario3w ∧
    panScenario3w.viewOffsetX = 130 / 7 ∧
    panScenario3w.viewOffsetX ≠ 0 := by
  refine ⟨?_, rfl, ?_, ?_⟩
  · rw [panScenarioInit_eval]
  · rw [panScenario3w_eval]
  · rw [panScenario3w_eval]
    norm_num

/-- Claim C5 as amended: toggling from full-span to the 3-week view sets the
pan offset to 0 and then re-clamps it against the freshly recomputed content
bounds (so the final offset need not be 0), and recomputes the content width
as `(fullTimeSpan / effectiveThreeWeekSpan) * graphWidth`; when the plan is
at least three weeks long the effective span is exactly three weeks and the
final three weeks map onto exactly `graphWidth` pixels. -/
theorem setViewMode_threeWeeks_spec (s : RendererState)
    (hmode : s.viewMode = ViewMode.full)
    (hspan : threeWeeksInMillis ≤ s.goalDateMs - s.startDateMs) :
    (setViewMode ViewMode.threeWeeks s).totalGraphContentWidth =
      ((s.goalDateMs - s.startDateMs : ℤ) : ℚ) / ((threeWeeksInMillis : ℤ) : ℚ) *
        graphWidth s ∧
    mapTimeToX s.startDateMs (fullSpanOf s)
        ((setViewMode ViewMode.threeWeeks s).totalGraphContentWidth) s.goalDateMs -
      mapTimeToX s.startDateMs (fullSpanOf s)
        ((setViewMode ViewMode.threeWeeks s).totalGraphContentWidth)
        (s.goalDateMs - threeWeeksInMillis) = graphWidth s ∧
    setViewMode ViewMode.threeWeeks s =
      constrainViewOffset
        { processData { s with viewMode := ViewMode.threeWeeks, viewOffsetX := 0 } with
          sliderX := some padLeft } := by
  have h3w : threeWeeksInMillis = 1814400000 := rfl
  have hne : ¬(s.viewMode = ViewMode.threeWeeks) := by
    rw [hmode]
    exact fun hc => ViewMode.noConfusion hc
  have hstep : setViewMode ViewMode.threeWeeks s =
      constrainViewOffset
        { processData { s with viewMode := ViewMode.threeWeeks, viewOffsetX := 0 } with
          sliderX := some padLeft } := by
    rw [setViewMode, if_neg hne]
  have hW : (setViewMode ViewMode.threeWeeks s).totalGraphContentWidth =
      ((s.goalDateMs - s.startDateMs : ℤ) : ℚ) / ((threeWeeksInMillis : ℤ) : ℚ) *
        graphWidth s := by
    rw [hstep]
    show (processData { s with viewMode := ViewMode.threeWeeks, viewOffsetX := 0
        }).totalGraphContentWidth = _
    rw [processData_contentWidth]
    have heff : effectiveSpanOf { s with viewMode := ViewMode.threeWeeks, viewOffsetX := 0 } =
        threeWeeksInMillis := by
      show max 1 (s.goalDateMs - max s.startDateMs (s.goalDateMs - threeWeeksInMillis)) = _
      rw [max_eq_right (by omega : s.startDateMs ≤ s.goalDateMs - threeWeeksInMillis)]
      omega
    have hfull : fullSpanOf { s with viewMode := ViewMode.threeWeeks, viewOffsetX := 0 } =
        s.goalDateMs - s.startDateMs := by
      show max 1 (s.goalDateMs - s.startDateMs) = _
      omega
    have hgw : graphWidth { s with viewMode := ViewMode.threeWeeks, viewOffsetX := 0 } =
        graphWidth s := rfl
    rw [contentWidthOf, heff, hfull, hgw, if_pos]
    exact ⟨lt_of_lt_of_le one_pos (le_max_left 1 _), by omega⟩
  refine ⟨hW, ?_, hstep⟩
  have hfull : fullSpanOf s = s.goalDateMs - s.startDateMs :=
    max_eq_right (by omega : (1 : ℤ) ≤ s.goalDateMs - s.startDateMs)
  have hpos : (0 : ℤ) < fullSpanOf s := by omega
  have hq : ((s.goalDateMs - s.startDateMs : ℤ) : ℚ) ≠ 0 := by
    have h0 : (0 : ℤ) < s.goalDateMs - s.startDateMs := by omega
    exact ne_of_gt (by exact_mod_cast h0)
  have h3wq : ((threeWeeksInMillis : ℤ) : ℚ) ≠ 0 := by
    rw [h3w]
    norm_num
  rw [hW]
  unfold mapTimeToX
  simp only [if_pos hpos]
  rw [hfull]
  have hc : ((s.goalDateMs - threeWeeksInMillis - s.startDateMs : ℤ) : ℚ) =
      ((s.goalDateMs - s.startDateMs : ℤ) : ℚ) - ((threeWeeksInMillis : ℤ) : ℚ) := by
    push_cast
    ring
  rw [hc]
  have hgen : ∀ X T G : ℚ, X ≠ 0 → T ≠ 0 →
      padLeft + X / X * (X / T * G) - (padLeft + (X - T) / X * (X / T * G)) = G := by
    intro X T G hX hT
    rw [div_self hX, one_mul]
    field_simp
    ring
  exact hgen _ _ _ hq h3wq

/-- Witness for `setViewMode_threeWeeks_spec` on the 42-day plan. -/
theorem setViewMode_threeWeeks_spec_witness :
    (setViewMode ViewMode.threeWeeks panScenarioInit).totalGraphContentWidth =
      ((panScenarioInit.goalDateMs - panScenarioInit.startDateMs : ℤ) : ℚ) /
        ((threeWeeksInMillis : ℤ) : ℚ) * graphWidth panScenarioInit :=
  (setViewMode_threeWeeks_spec panScenarioInit
    (by rw [panScenarioInit_eval]) (by rw [panScenarioInit_eval]; decide)).1

/-! ## The probe-drag clamp claim -/

theorem constrainP5_bounds (x lb vmax end0 : ℚ) :
    lb ≤ constrainP5 x lb (min vmax (max lb end0)) ∧
    constrainP5 x lb (min vmax (max lb end0)) ≤ max lb (min vmax end0) ∧
    (lb ≤ min vmax end0 → constrainP5 x lb (min vmax (max lb end0)) ≤ min vmax end0) := by
  unfold constrainP5
  refine ⟨le_max_right _ _, ?_, ?_⟩
  · rcases le_total lb end0 with h | h
    · rw [max_eq_right h]
      apply max_le
      · exact le_trans (min_le_right _ _) (le_max_right _ _)
      · exact le_max_left _ _
    · rw [max_eq_left h]
      apply max_le
      · exact le_trans (min_le_right _ _) (le_trans (min_le_right _ _) (le_max_left _ _))
      · exact le_max_left _ _
  · intro hgood
    have h1 : lb ≤ end0 := le_trans hgood (min_le_right _ _)
    rw [max_eq_right h1]
    exact max_le (min_le_right _ _) hgood

/-- Claim C7, counterexample: with start 13:00 and goal 14:00 on the same
day, both points sit at x = −770; during a probe drag the probe is clamped
to x = 10 (the left padding), while the claim's interval
`[visibleContentStart, min(visibleViewportEdge, visibleContentEnd)]` is
`[10, −770]` — empty — so the probe ends up past the content's actual
extent. -/
theorem sliderClamp_counterexample :
    sliderScenarioPressed.isDraggingSlider = true ∧
    sliderScenarioDragged.sliderX = some 10 ∧
    min (sliderScenarioDragged.canvasWidth - padLeft)
        (sliderScenarioDragged.contentMaxX - sliderScenarioDragged.viewOffsetX) = -770 ∧
    ¬((10 : ℚ) ≤ -770) := by
  refine ⟨?_, ?_, ?_, by norm_num⟩
  · rw [sliderScenarioPressed_eval]
  · rw [sliderScenarioDragged_eval]
  · rw [sliderScenarioDragged_eval]
    norm_num [padLeft, min_def]

/-- Claim C7 as amended: while a probe drag is active, every pointer move
clamps the probe's X into
`[visibleContentStart, min(visualEdge, max(visibleContentStart,
visibleContentEnd))]` where `visibleContentStart = max(leftPadding,
contentMinX − panOffset)`, `visibleContentEnd = contentMaxX − panOffset` and
`visualEdge = canvasWidth − leftPadding`.  Whenever the claim's interval
`[visibleContentStart, min(visualEdge, visibleContentEnd)]` is nonempty the
probe indeed lands inside it; when it is empty (content entirely left of the
padding) the probe rests at `visibleContentStart`, past the content's
extent.  The touch-move handler performs the identical clamp. -/
theorem sliderDrag_clamp_bounds (s : RendererState) (mouseX sx : ℚ)
    (hdrag : s.isDraggingSlider = true) (hsx : s.sliderX = some sx) :
    ∃ r : ℚ, (handleMouseDragged s mouseX).sliderX = some r ∧
      max padLeft (s.contentMinX - s.viewOffsetX) ≤ r ∧
      r ≤ max (max padLeft (s.contentMinX - s.viewOffsetX))
            (min (s.canvasWidth - padLeft) (s.contentMaxX - s.viewOffsetX)) ∧
      (max padLeft (s.contentMinX - s.viewOffsetX) ≤
          min (s.canvasWidth - padLeft) (s.contentMaxX - s.viewOffsetX) →
        r ≤ min (s.canvasWidth - padLeft) (s.contentMaxX - s.viewOffsetX)) := by
  obtain ⟨b1, b2, b3⟩ := constrainP5_bounds mouseX (max padLeft (s.contentMinX - s.viewOffsetX))
    (s.canvasWidth - padLeft) (s.contentMaxX - s.viewOffsetX)
  refine ⟨constrainP5 mouseX (max padLeft (s.contentMinX - s.viewOffsetX))
      (min (s.canvasWidth - padLeft)
        (max (max padLeft (s.contentMinX - s.viewOffsetX))
          (s.contentMaxX - s.viewOffsetX))), ?_, b1, b2, b3⟩
  unfold handleMouseDragged
  split
  · rfl
  · simp_all

/-- Witness for `sliderDrag_clamp_bounds` at the degenerate same-day plan
mid-drag. -/
theorem sliderDrag_clamp_bounds_witness :
    ∃ r : ℚ, (handleMouseDragged sliderScenarioPressed 400).sliderX = some r ∧
      max padLeft (sliderScenarioPressed.contentMinX - sliderScenarioPressed.viewOffsetX) ≤ r ∧
      r ≤ max (max padLeft (sliderScenarioPressed.contentMinX -
              sliderScenarioPressed.viewOffsetX))
            (min (sliderScenarioPressed.canvasWidth - padLeft)
              (sliderScenarioPressed.contentMaxX - sliderScenarioPressed.viewOffsetX)) ∧
      (max padLeft (sliderScenarioPressed.contentMinX - sliderScenarioPressed.viewOffsetX) ≤
          min (sliderScenarioPressed.canvasWidth - padLeft)
            (sliderScenarioPressed.contentMaxX - sliderScenarioPressed.viewOffsetX) →
        r ≤ min (sliderScenarioPressed.canvasWidth - padLeft)
              (sliderScenarioPressed.contentMaxX - sliderScenarioPressed.viewOffsetX)) :=
  sliderDrag_clamp_bounds sliderScenarioPressed 400 10
    (by rw [sliderScenarioPressed_eval]) (by rw [sliderScenarioPressed_eval])

end RunGraph
